import Mathlib

/-!
Verification of the `pset_utils` module (src/pset_utils/__init__.py) against its
specification.

The module has two independent pieces:

* the `Figure` context manager (class-level mutable configuration, an
  auto-incrementing figure counter, and a show-or-save action on scope exit),
  together with its `Figure3d` subclass; and
* `numpy_from_csv`, which loads a csv file into a numpy structured array whose
  per-field dtype is inferred from the first data row.

Both are embedded shallowly below: the class-level attributes become an explicit
state record, side effects on the plotting backend become an explicit effect
trace, and Python exceptions become `Except` errors.
-/

namespace PsetUtils

/-- Python exceptions that the embedded code can raise. -/
inductive PyError where
  | typeError
  | attributeError
  | indexError
  | valueError
deriving DecidableEq, Repr

/-- Python values relevant to this module: ints, floats (modelled as rationals),
strings, and `None`. -/
inductive PyVal where
  | int (n : ℤ)
  | float (q : ℚ)
  | str (s : String)
  | pyNone
deriving DecidableEq, Repr

/-- Python truthiness of the values we model (used by the `with`-statement to
decide whether `__exit__`'s return value suppresses an exception). -/
def truthy : PyVal → Bool
  | PyVal.int n => if n = 0 then false else true
  | PyVal.float q => if q = 0 then false else true
  | PyVal.str s => if s = "" then false else true
  | PyVal.pyNone => false

/-- The two classes of the module: `Figure` and its subclass `Figure3d`. -/
inductive Cls where
  | figure
  | figure3d
deriving DecidableEq, Repr

/-- A figure name as assigned by `Figure.__init__`: either the auto-assigned
integer `self._number` (anonymous path) or the caller-supplied string. -/
inductive FigName where
  | num (n : ℕ)
  | str (s : String)
deriving DecidableEq, Repr

/-- One `Figure` (or `Figure3d`) instance. `name = Option.none` models the
quick-plot path of `__init__`, which returns without ever assigning the `name`
attribute. The drawing surface (`self.fig`) carries no data we track; its
lifecycle shows up in the effect trace. -/
structure Session where
  cls : Cls
  name : Option FigName
deriving DecidableEq, Repr

/-- A figure size, as passed via the `figsize` keyword argument. -/
abbrev Size := ℚ × ℚ

/-- Module constant `FIGSIZE = (6, 6)` (source line 45). -/
def FIGSIZE : Size := (6, 6)

/-- The class-level attributes of `Figure` and `Figure3d`. `Figure` defines
`_interactive`, `_number` and `_suffix` in its class body; `Figure3d` defines
none of its own, so its slots are `Option`s that start empty. A write through
`Figure3d` (via the classmethod's `cls`) fills the slot, shadowing the base
class. `_number` is only ever written as `Figure._number`, so `Figure3d` never
acquires its own `_number` and it needs no slot. -/
structure PyClasses where
  figureInteractive : Bool
  figureNumber : ℕ
  figureSuffix : String
  fig3dInteractive : Option Bool
  fig3dSuffix : Option String
deriving DecidableEq, Repr

/-- The class attributes at module load time: `_interactive = True`,
`_number = 0`, `_suffix = ''` on `Figure`; nothing on `Figure3d`. -/
def initState : PyClasses :=
  { figureInteractive := true
    figureNumber := 0
    figureSuffix := ""
    fig3dInteractive := Option.none
    fig3dSuffix := Option.none }

/-- Attribute lookup for `self._interactive` / `cls._interactive` through the
Python class chain: an attribute set on `Figure3d` shadows the one on `Figure`. -/
def readInteractive (c : Cls) (s : PyClasses) : Bool :=
  match c with
  | Cls.figure => s.figureInteractive
  | Cls.figure3d => s.fig3dInteractive.getD s.figureInteractive

/-- Attribute lookup for `self._suffix` / `cls._suffix` through the Python
class chain. -/
def readSuffix (c : Cls) (s : PyClasses) : String :=
  match c with
  | Cls.figure => s.figureSuffix
  | Cls.figure3d => s.fig3dSuffix.getD s.figureSuffix

/-- `Figure.set_interactive` (source lines 80-83): `cls._interactive =
interactive`, where `cls` is the class the classmethod was invoked through. -/
def set_interactive (c : Cls) (interactive : Bool) (s : PyClasses) : PyClasses :=
  match c with
  | Cls.figure => { s with figureInteractive := interactive }
  | Cls.figure3d => { s with fig3dInteractive := some interactive }

/-- The suffix value computed by `Figure.set_extension` (source line 91): a dot
followed by the argument when the argument is not `None`, the empty string when
it is `None`. An empty-string argument is not `None`, so it yields a bare dot. -/
def formatSuffix (suffix : Option String) : String :=
  match suffix with
  | some s => "." ++ s
  | Option.none => ""

/-- `Figure.set_extension` (source lines 85-91): `cls._suffix = '.' + suffix`
when `suffix is not None`, else `''`; `cls` is the class invoked through. -/
def set_extension (c : Cls) (suffix : Option String) (s : PyClasses) : PyClasses :=
  match c with
  | Cls.figure => { s with figureSuffix := formatSuffix suffix }
  | Cls.figure3d => { s with fig3dSuffix := some (formatSuffix suffix) }

/-- Observable calls into the plotting backend, in order of occurrence.
`createFigure fsz` records a `plt.figure` call and the `figsize` argument it was
given (`Option.none` when `plt.figure()` is called with no arguments, so the
backend falls back to its own default size). -/
inductive Effect where
  | createFigure (figsize : Option Size)
  | plot
  | showPlot
  | savefig (filename : String)
  | close
deriving DecidableEq, Repr

/-- `Figure.__exit__` (source lines 73-78). In interactive mode it calls
`plt.show()`. Otherwise it evaluates `self.name + self._suffix` and saves:
when `name` was never assigned (quick-plot path) the attribute access raises
`AttributeError`; when `name` is the auto-assigned integer, `int + str` raises
`TypeError`; when `name` is a string the figure is saved to `name + suffix`
and then closed. Attributes are read through the session's class. -/
def exitFigure (sess : Session) (s : PyClasses) : Except PyError (List Effect) :=
  if readInteractive sess.cls s then
    Except.ok [Effect.showPlot]
  else
    match sess.name with
    | Option.none => Except.error PyError.attributeError
    | some (FigName.num _) => Except.error PyError.typeError
    | some (FigName.str nm) =>
        Except.ok [Effect.savefig (nm ++ readSuffix sess.cls s), Effect.close]

/-- The value `__exit__` returns when it completes: it has no `return`
statement, so it returns `None` on every completing path. -/
def exitReturnValue : PyVal := PyVal.pyNone

/-- Outcome of the body of a `with` block: it either completes or raises. -/
inductive BodyOutcome where
  | ok
  | raises (e : PyError)
deriving DecidableEq, Repr

/-- Python `with`-statement semantics for a `Figure` session: once `__enter__`
has succeeded, `__exit__` runs regardless of whether the body raised. The
result is the effect trace of `__exit__` together with the exception (if any)
that propagates out of the `with` statement: an exception raised by `__exit__`
itself, or the body's exception unless `__exit__` returned a truthy value. -/
def runScope (sess : Session) (s : PyClasses) (body : BodyOutcome) :
    List Effect × Option PyError :=
  match exitFigure sess s with
  | Except.error e2 => ([], some e2)
  | Except.ok effs =>
      match body with
      | BodyOutcome.ok => (effs, Option.none)
      | BodyOutcome.raises e =>
          (effs, if truthy exitReturnValue then Option.none else some e)

/-- The three constructor argument shapes of `Figure.__init__` (source lines
54-68): no positional arguments (anonymous), a leading string (named), or
leading non-string data-series arguments (quick-plot). For the first two,
`fsz` is the caller's `figsize` keyword argument if supplied. Remaining
positional and keyword arguments are passed through to the backend opaquely
and are not modelled. -/
inductive CtorArgs where
  | anonymous (fsz : Option Size)
  | named (nm : String) (fsz : Option Size)
  | quickplot
deriving DecidableEq, Repr

/-- Result of running `Figure.__init__`: the backend calls it made, the
constructed instance (or the exception it raised), and the class-level state
afterwards. -/
structure CtorOutcome where
  effects : List Effect
  result : Except PyError Session
  state : PyClasses
deriving Repr

/-- `Figure.__init__` (source lines 54-68). Anonymous: `self.name =
self._number`, then `Figure._number += 1`, then `plt.figure` with the default
`figsize` injected when absent. Named: `self.name = args[0]`, same `figsize`
default, counter untouched. Otherwise (quick-plot): `self.fig = plt.figure()`
with no arguments, then `with self: plt.plot(...)` — the whole scope cycle runs
inside the constructor, `self.name` is never assigned, and `__init__` returns
(or lets the scope's exception propagate). -/
def figureInit (c : Cls) (args : CtorArgs) (s : PyClasses) : CtorOutcome :=
  match args with
  | CtorArgs.anonymous fsz =>
      { effects := [Effect.createFigure (some (fsz.getD FIGSIZE))]
        result := Except.ok ⟨c, some (FigName.num s.figureNumber)⟩
        state := { s with figureNumber := s.figureNumber + 1 } }
  | CtorArgs.named nm fsz =>
      { effects := [Effect.createFigure (some (fsz.getD FIGSIZE))]
        result := Except.ok ⟨c, some (FigName.str nm)⟩
        state := s }
  | CtorArgs.quickplot =>
      let sess : Session := ⟨c, Option.none⟩
      let r := runScope sess s BodyOutcome.ok
      { effects := Effect.createFigure Option.none :: Effect.plot :: r.1
        result :=
          match r.2 with
          | some e => Except.error e
          | Option.none => Except.ok sess
        state := s }

/-- `Figure.fig_3d` (source lines 93-96): returns a `Figure3d` instance built
from the same arguments. -/
def fig_3d (args : CtorArgs) (s : PyClasses) : CtorOutcome :=
  figureInit Cls.figure3d args s

/-- A construction event: which class was instantiated, and with which
argument shape. -/
abbrev Event := Cls × CtorArgs

/-- The class-level state after one construction. Python mutations made by
`__init__` before an exception persist; on the only raising path (quick-plot)
no class-level mutation happens, so the outcome's `state` field is the state
after the event whether or not it raised. -/
def stateAfter (s : PyClasses) (ev : Event) : PyClasses :=
  (figureInit ev.1 ev.2 s).state

/-- The class-level state after a sequence of constructions. -/
def runEvents (s : PyClasses) (es : List Event) : PyClasses :=
  es.foldl stateAfter s

/-- Whether a construction event takes the anonymous (auto-numbered) path. -/
def isAnon : CtorArgs → Bool
  | CtorArgs.anonymous _ => true
  | _ => false

/-- How many constructions of a sequence take the anonymous path. -/
def countAnon : List Event → ℕ
  | [] => 0
  | ev :: es => (if isAnon ev.2 then 1 else 0) + countAnon es

/-- The names assigned by the anonymous constructions of a sequence, in
creation order (the `getD` default is never reached: the anonymous path always
constructs a named session). -/
def anonNamesOf (s : PyClasses) : List Event → List FigName
  | [] => []
  | ev :: es =>
      let out := figureInit ev.1 ev.2 s
      match ev.2, out.result with
      | CtorArgs.anonymous _, Except.ok sess =>
          sess.name.getD (FigName.num 0) :: anonNamesOf out.state es
      | _, _ => anonNamesOf out.state es

/-! ## The csv loader

`numpy_from_csv` (source lines 111-129) is embedded over an abstract view of
the csv file: a list of rows, each row a list of raw fields tagged with
whether the field was quoted in the file. The default quoting policy
`csv.QUOTE_NONNUMERIC` is the one modelled (it is the policy all claims use):
the reader converts every unquoted field with `float`, raising `ValueError`
when that fails, and leaves quoted fields as strings. -/

/-- A raw csv field: its text, and whether it was quoted in the file. -/
structure RawField where
  raw : String
  quoted : Bool
deriving DecidableEq, Repr

/-- The numeric value of one decimal digit. -/
def digitVal? (c : Char) : Option ℕ :=
  if c.isDigit then some (c.toNat - 48) else Option.none

/-- The value of a run of decimal digits, most significant first, accumulated
onto `acc`; fails on any non-digit. An empty run yields `acc`. -/
def digitsVal? : List Char → ℕ → Option ℕ
  | [], acc => some acc
  | c :: cs, acc =>
      match digitVal? c with
      | some d => digitsVal? cs (10 * acc + d)
      | Option.none => Option.none

/-- Split a character list at its first dot: the part before it, and (when a
dot is present) the part after it. -/
def splitDot : List Char → List Char × Option (List Char)
  | [] => ([], Option.none)
  | c :: cs =>
      if c = '.' then ([], some cs)
      else
        let r := splitDot cs
        (c :: r.1, r.2)

/-- Python `float()` on plain decimal literals: an optional sign, then digits
with an optional fractional part (at least one digit overall); the value of
`ip.fp` is `(ip * 10^len(fp) + fp) / 10^len(fp)`. Exponents, `inf`/`nan`,
underscores and surrounding whitespace are accepted by Python but not
modelled; no claim exercises them. -/
def pyFloat? (s : String) : Option ℚ :=
  let cs0 := s.toList
  let signed : Bool × List Char :=
    match cs0 with
    | '-' :: rest => (true, rest)
    | '+' :: rest => (false, rest)
    | _ => (false, cs0)
  let ipfp := splitDot signed.2
  let frac := ipfp.2.getD []
  if ipfp.1.isEmpty && frac.isEmpty then Option.none
  else
    match digitsVal? ipfp.1 0, digitsVal? frac 0 with
    | some iv, some fv =>
        let den : ℕ := 10 ^ frac.length
        let q : ℚ := mkRat (Int.ofNat (iv * den + fv)) den
        some (if signed.1 then -q else q)
    | _, _ => Option.none

/-- Python `int()` on plain decimal literals: an optional sign, then at least
one digit. -/
def pyInt? (s : String) : Option ℤ :=
  let cs0 := s.toList
  let signed : Bool × List Char :=
    match cs0 with
    | '-' :: rest => (true, rest)
    | '+' :: rest => (false, rest)
    | _ => (false, cs0)
  match signed.2 with
  | [] => Option.none
  | ds => (digitsVal? ds 0).map (fun n => if signed.1 then -(n : ℤ) else (n : ℤ))

/-- One field as produced by `csv.reader` under `QUOTE_NONNUMERIC`: a quoted
field stays a string; an unquoted field is converted with `float`, raising
`ValueError` when the conversion fails. -/
def parseField (f : RawField) : Except PyError PyVal :=
  if f.quoted then Except.ok (PyVal.str f.raw)
  else
    match pyFloat? f.raw with
    | some q => Except.ok (PyVal.float q)
    | Option.none => Except.error PyError.valueError

/-- One csv row as produced by the reader: its fields left to right, stopping
at the first conversion failure. -/
def parseRow : List RawField → Except PyError (List PyVal)
  | [] => Except.ok []
  | f :: fs =>
      match parseField f, parseRow fs with
      | Except.error e, _ => Except.error e
      | Except.ok v, Except.ok vs => Except.ok (v :: vs)
      | Except.ok _, Except.error e => Except.error e

/-- `data = list(csv.reader(f, quoting=csv.QUOTE_NONNUMERIC))` (source line
127): every row of the file is parsed eagerly, row by row and field by field,
so a conversion failure anywhere in the file raises before any further
processing. -/
def readCsv : List (List RawField) → Except PyError (List (List PyVal))
  | [] => Except.ok []
  | row :: rows =>
      match parseRow row, readCsv rows with
      | Except.error e, _ => Except.error e
      | Except.ok r, Except.ok rs => Except.ok (r :: rs)
      | Except.ok _, Except.error e => Except.error e

/-- The numpy dtype assigned to a field: `int`, `float`, or `object`. -/
inductive Dtype where
  | pyInt
  | pyFloat
  | object
deriving DecidableEq, Repr

/-- The dtype expression of source line 128: `type(x) if isinstance(x, (int,
float)) else object`. -/
def dtypeOf : PyVal → Dtype
  | PyVal.int _ => Dtype.pyInt
  | PyVal.float _ => Dtype.pyFloat
  | _ => Dtype.object

/-- Truncation of a rational toward zero, as Python `int(float)` does. -/
def truncTowardZero (q : ℚ) : ℤ :=
  if q < 0 then -((-q).floor) else q.floor

/-- Coercion of one value to a field dtype, as `np.array` performs when
building a structured array: `object` accepts anything; a `float` field
accepts numbers and parses strings with `float`; an `int` field accepts ints,
truncates floats, and parses strings with `int`; failures raise. -/
def coerce (d : Dtype) (v : PyVal) : Except PyError PyVal :=
  match d with
  | Dtype.object => Except.ok v
  | Dtype.pyFloat =>
      match v with
      | PyVal.float q => Except.ok (PyVal.float q)
      | PyVal.int n => Except.ok (PyVal.float (mkRat n 1))
      | PyVal.str s =>
          match pyFloat? s with
          | some q => Except.ok (PyVal.float q)
          | Option.none => Except.error PyError.valueError
      | PyVal.pyNone => Except.error PyError.typeError
  | Dtype.pyInt =>
      match v with
      | PyVal.int n => Except.ok (PyVal.int n)
      | PyVal.float q => Except.ok (PyVal.int (truncTowardZero q))
      | PyVal.str s =>
          match pyInt? s with
          | some n => Except.ok (PyVal.int n)
          | Option.none => Except.error PyError.valueError
      | PyVal.pyNone => Except.error PyError.typeError

/-- A structured-array field name must be a string; anything else fails the
dtype specification. -/
def fieldName (v : PyVal) : Except PyError String :=
  match v with
  | PyVal.str s => Except.ok s
  | _ => Except.error PyError.typeError

/-- Coercion of a list of (field, value) pairs, left to right. -/
def coerceFields : List ((String × Dtype) × PyVal) → Except PyError (List PyVal)
  | [] => Except.ok []
  | p :: ps =>
      match coerce p.1.2 p.2, coerceFields ps with
      | Except.error e, _ => Except.error e
      | Except.ok v, Except.ok vs => Except.ok (v :: vs)
      | Except.ok _, Except.error e => Except.error e

/-- Coercion of one data row to the inferred schema: the row must have exactly
one value per field, each coerced to its field's dtype. -/
def coerceRow (schema : List (String × Dtype)) (row : List PyVal) :
    Except PyError (List PyVal) :=
  if row.length = schema.length then coerceFields (schema.zip row)
  else Except.error PyError.valueError

/-- Coercion of every data row to the schema, stopping at the first failure. -/
def coerceRows (schema : List (String × Dtype)) :
    List (List PyVal) → Except PyError (List (List PyVal))
  | [] => Except.ok []
  | row :: rows =>
      match coerceRow schema row, coerceRows schema rows with
      | Except.error e, _ => Except.error e
      | Except.ok r, Except.ok rs => Except.ok (r :: rs)
      | Except.ok _, Except.error e => Except.error e

/-- The dtype specification `list(zip(data[0], dtypes))` handed to `np.array`:
`zip` truncates to the shorter list, and numpy requires every field name to be
a string. -/
def buildSchema : List (PyVal × Dtype) → Except PyError (List (String × Dtype))
  | [] => Except.ok []
  | p :: ps =>
      match fieldName p.1, buildSchema ps with
      | Except.error e, _ => Except.error e
      | Except.ok n, Except.ok sc => Except.ok ((n, p.2) :: sc)
      | Except.ok _, Except.error e => Except.error e

/-- The structured array produced by `numpy_from_csv`: the inferred schema and
the coerced data rows. -/
structure RecordSet where
  schema : List (String × Dtype)
  rows : List (List PyVal)
deriving DecidableEq, Repr

/-- `numpy_from_csv` (source lines 111-129) over the abstract file contents:
parse every row under `QUOTE_NONNUMERIC`; index `data[1]` (raising
`IndexError` when there is no first data row) and map each of its values to a
dtype; pair the header `data[0]` with the dtypes (`zip` truncates to the
shorter); require the field names to be strings; and build the array from all
rows after the header, each coerced to the schema. -/
def numpy_from_csv (file : List (List RawField)) : Except PyError RecordSet :=
  match readCsv file with
  | Except.error e => Except.error e
  | Except.ok [] => Except.error PyError.indexError
  | Except.ok [_] => Except.error PyError.indexError
  | Except.ok (hdr :: row1 :: rest) =>
      let dtypes := row1.map dtypeOf
      match buildSchema (hdr.zip dtypes) with
      | Except.error e => Except.error e
      | Except.ok schema =>
          match coerceRows schema (row1 :: rest) with
          | Except.error e => Except.error e
          | Except.ok outRows => Except.ok ⟨schema, outRows⟩

/-- A concrete csv file used as a running example: quoted header `a,b,c`, first
data row `1,2.5,"x"`, second data row `3,"7","yz"`. -/
def csvExample : List (List RawField) :=
  [[⟨"a", true⟩, ⟨"b", true⟩, ⟨"c", true⟩],
   [⟨"1", false⟩, ⟨"2.5", false⟩, ⟨"x", true⟩],
   [⟨"3", false⟩, ⟨"7", true⟩, ⟨"yz", true⟩]]

/-- Decidable equality of `Except` results, used to evaluate the model on
concrete inputs. -/
instance exceptDecEq {ε α : Type} [DecidableEq ε] [DecidableEq α] :
    DecidableEq (Except ε α) := fun x y =>
  match x, y with
  | Except.ok a, Except.ok b =>
      if h : a = b then Decidable.isTrue (by rw [h])
      else Decidable.isFalse (fun hxy => by cases hxy; exact h rfl)
  | Except.error e, Except.error f =>
      if h : e = f then Decidable.isTrue (by rw [h])
      else Decidable.isFalse (fun hxy => by cases hxy; exact h rfl)
  | Except.ok _, Except.error _ => Decidable.isFalse (fun hxy => by cases hxy)
  | Except.error _, Except.ok _ => Decidable.isFalse (fun hxy => by cases hxy)

/-! ## Helper lemmas -/

/-- One construction never decreases the auto-increment counter. -/
theorem figureNumber_le_stateAfter (s : PyClasses) (ev : Event) :
    s.figureNumber ≤ (stateAfter s ev).figureNumber := by
  rcases ev with ⟨c, args⟩
  cases args <;> simp [stateAfter, figureInit]

/-- A sequence of constructions never decreases the counter. -/
theorem figureNumber_le_runEvents (es : List Event) (s : PyClasses) :
    s.figureNumber ≤ (runEvents s es).figureNumber := by
  induction es generalizing s with
  | nil => exact Nat.le_refl _
  | cons ev es ih =>
      calc s.figureNumber ≤ (stateAfter s ev).figureNumber :=
            figureNumber_le_stateAfter s ev
        _ ≤ (runEvents (stateAfter s ev) es).figureNumber := ih _
        _ = (runEvents s (ev :: es)).figureNumber := rfl

/-- The names assigned by the anonymous constructions of any event sequence
are the consecutive integers starting at the current counter value. -/
theorem anonNamesOf_eq_range (es : List Event) (s : PyClasses) :
    anonNamesOf s es = (List.range' s.figureNumber (countAnon es)).map FigName.num := by
  induction es generalizing s with
  | nil => rfl
  | cons ev es ih =>
      rcases ev with ⟨c, args⟩
      cases args with
      | anonymous fsz =>
          have hc : countAnon ((c, CtorArgs.anonymous fsz) :: es) = countAnon es + 1 := by
            simp [countAnon, isAnon, Nat.add_comm]
          rw [hc, List.range'_succ]
          simpa [anonNamesOf, figureInit] using ih { s with figureNumber := s.figureNumber + 1 }
      | named nm fsz =>
          have hc : countAnon ((c, CtorArgs.named nm fsz) :: es) = countAnon es := by
            simp [countAnon, isAnon]
          rw [hc]
          simpa [anonNamesOf, figureInit] using ih s
      | quickplot =>
          have hc : countAnon ((c, CtorArgs.quickplot) :: es) = countAnon es := by
            simp [countAnon, isAnon]
          rw [hc]
          rcases hr : (runScope ⟨c, Option.none⟩ s BodyOutcome.ok).2 with _ | e <;>
            simpa [anonNamesOf, figureInit, hr] using ih s

/-! ## The claims -/

/-- C1: the claim reads exit as never writing in interactive mode and always
writing `name + suffix` in non-interactive mode, for anonymous sessions too.
On the code, an anonymous session's name is the integer `self._number`, so in
non-interactive mode `self.name + self._suffix` is `int + str` and raises
`TypeError`: no file is written. This theorem evaluates the code at that
failing input (and shows the interactive path of the same session is fine). -/
theorem anonymous_noninteractive_exit_raises :
    (figureInit Cls.figure (CtorArgs.anonymous Option.none) initState).result
      = Except.ok ⟨Cls.figure, some (FigName.num 0)⟩
    ∧ exitFigure ⟨Cls.figure, some (FigName.num 0)⟩
        (set_interactive Cls.figure false initState)
      = Except.error PyError.typeError
    ∧ exitFigure ⟨Cls.figure, some (FigName.num 0)⟩ initState
      = Except.ok [Effect.showPlot] :=
  ⟨rfl, rfl, rfl⟩

/-- C2 counterexample: the claimed example fails on the code. With the file
exactly as the claim writes it (unquoted `a,b,c` then `1,2.5,x`), the default
`QUOTE_NONNUMERIC` policy raises `ValueError` converting the unquoted text, so
no record set exists at all; and with the text fields quoted so the load
succeeds, field `a` gets the floating-point dtype, not an integer dtype,
because `QUOTE_NONNUMERIC` converts every unquoted field with `float`. -/
theorem csv_claim_example_refuted :
    numpy_from_csv
        [[RawField.mk "a" false, RawField.mk "b" false, RawField.mk "c" false],
         [RawField.mk "1" false, RawField.mk "2.5" false, RawField.mk "x" false]]
      = Except.error PyError.valueError
    ∧ numpy_from_csv
        [[RawField.mk "a" true, RawField.mk "b" true, RawField.mk "c" true],
         [RawField.mk "1" false, RawField.mk "2.5" false, RawField.mk "x" true]]
      = Except.ok ⟨[("a", Dtype.pyFloat), ("b", Dtype.pyFloat), ("c", Dtype.object)],
          [[PyVal.float 1, PyVal.float (mkRat 5 2), PyVal.str "x"]]⟩
    ∧ Dtype.pyFloat ≠ Dtype.pyInt :=
  ⟨by decide, by decide, by decide⟩

/-- C2 (amended): under the default quoting policy the first data row fixes
the schema, but a value the reader parsed can only be a float (unquoted,
numeric) or a string (quoted) — never an int, so a numeric value always yields
the floating-point dtype and a quoted value the object dtype. On the quoted
variant of the claimed example (header `a,b,c`, first data row `1,2.5,"x"`),
field `a` is float-typed, `b` float-typed, `c` object-typed, and every
subsequent row is coerced to that schema. -/
theorem csv_dtype_inference (f : RawField) (v : PyVal) :
    (parseField f = Except.ok v →
      dtypeOf v ≠ Dtype.pyInt
      ∧ (f.quoted = true → dtypeOf v = Dtype.object)
      ∧ (f.quoted = false → dtypeOf v = Dtype.pyFloat))
    ∧ numpy_from_csv csvExample =
        Except.ok ⟨[("a", Dtype.pyFloat), ("b", Dtype.pyFloat), ("c", Dtype.object)],
          [[PyVal.float 1, PyVal.float (mkRat 5 2), PyVal.str "x"],
           [PyVal.float 3, PyVal.float 7, PyVal.str "yz"]]⟩ := by
  constructor
  · intro hv
    by_cases hq : f.quoted
    · simp [parseField, hq] at hv
      subst hv
      exact ⟨by simp [dtypeOf], fun _ => by simp [dtypeOf],
        fun hfq => by rw [hq] at hfq; cases hfq⟩
    · simp [parseField, hq] at hv
      rcases hpf : pyFloat? f.raw with _ | q
      · rw [hpf] at hv; cases hv
      · rw [hpf] at hv
        cases hv
        exact ⟨by simp [dtypeOf], fun hfq => by simp [hq] at hfq,
          fun _ => by simp [dtypeOf]⟩
  · decide

/-- C2 witness: a concrete instantiation of the inference statement at the
quoted field `"x"`. -/
theorem csv_dtype_inference_witness :
    parseField ⟨"x", true⟩ = Except.ok (PyVal.str "x")
    ∧ dtypeOf (PyVal.str "x") = Dtype.object :=
  ⟨rfl, ((csv_dtype_inference ⟨"x", true⟩ (PyVal.str "x")).1 rfl).2.1 rfl⟩

/-- C3 counterexample: the claim says an empty suffix argument disables
suffixing, but only `None` does. `set_extension("")` stores the bare dot
`"."`, so a non-interactive session named `plot` is saved to `plot.`, not to
`plot`. -/
theorem set_extension_empty_appends_dot :
    exitFigure ⟨Cls.figure, some (FigName.str "plot")⟩
        (set_extension Cls.figure (some "") (set_interactive Cls.figure false initState))
      = Except.ok [Effect.savefig "plot.", Effect.close]
    ∧ ("plot." : String) ≠ "plot" :=
  ⟨rfl, by decide⟩

/-- C3 (amended): after `set_extension("png")` a non-interactive session named
`plot` is saved to `plot.png`; after `set_extension(None)` it is saved to
`plot` with nothing appended; after `set_extension("")` it is saved to `plot.`
(a bare dot is appended, since only `None` disables suffixing). -/
theorem set_extension_suffix_files :
    exitFigure ⟨Cls.figure, some (FigName.str "plot")⟩
        (set_extension Cls.figure (some "png") (set_interactive Cls.figure false initState))
      = Except.ok [Effect.savefig "plot.png", Effect.close]
    ∧ exitFigure ⟨Cls.figure, some (FigName.str "plot")⟩
        (set_extension Cls.figure Option.none (set_interactive Cls.figure false initState))
      = Except.ok [Effect.savefig "plot", Effect.close]
    ∧ exitFigure ⟨Cls.figure, some (FigName.str "plot")⟩
        (set_extension Cls.figure (some "") (set_interactive Cls.figure false initState))
      = Except.ok [Effect.savefig "plot.", Effect.close] :=
  ⟨rfl, rfl, rfl⟩

/-- C4 counterexample: the claim says the show-or-save-and-release action is
never skipped for any session. For a quick-plot session (its `name` attribute
was never assigned) in non-interactive mode, `__exit__` raises
`AttributeError` before saving: the scope produces no `savefig` and no `close`
effect, so the write-and-release action is skipped. -/
theorem quickplot_exit_skips_save_and_close :
    runScope ⟨Cls.figure, Option.none⟩
        (set_interactive Cls.figure false initState) BodyOutcome.ok
      = ([], some PyError.attributeError) :=
  rfl

/-- C4 (amended): for every session whose `name` is a string, `__exit__` runs
on every exit path — the body completing or raising — and either shows the
figure (interactive) or writes `name + suffix` and closes the surface
(non-interactive); the body's exception then still propagates. Sessions
without a string name fail at the save step instead (see the counterexample). -/
theorem exit_always_shows_or_saves (c : Cls) (nm : String) (s : PyClasses)
    (b : BodyOutcome) :
    (readInteractive c s = true →
      runScope ⟨c, some (FigName.str nm)⟩ s b =
        ([Effect.showPlot],
         match b with
         | BodyOutcome.ok => Option.none
         | BodyOutcome.raises e => some e))
    ∧ (readInteractive c s = false →
      runScope ⟨c, some (FigName.str nm)⟩ s b =
        ([Effect.savefig (nm ++ readSuffix c s), Effect.close],
         match b with
         | BodyOutcome.ok => Option.none
         | BodyOutcome.raises e => some e)) := by
  constructor <;> intro hi <;> cases b <;>
    simp [runScope, exitFigure, hi, truthy, exitReturnValue]

/-- C4 witness: a named session in non-interactive mode whose body raised
`ValueError` still saves and closes, and the exception propagates. -/
theorem exit_always_shows_or_saves_witness :
    runScope ⟨Cls.figure, some (FigName.str "plot")⟩
        (set_interactive Cls.figure false initState)
        (BodyOutcome.raises PyError.valueError)
      = ([Effect.savefig
            ("plot" ++ readSuffix Cls.figure (set_interactive Cls.figure false initState)),
          Effect.close],
         some PyError.valueError) :=
  (exit_always_shows_or_saves Cls.figure "plot"
    (set_interactive Cls.figure false initState)
    (BodyOutcome.raises PyError.valueError)).2 rfl

/-- C5: over any sequence of constructions starting at module load, the
anonymous constructions receive the names `0, 1, ..., k-1` in creation order
(named and quick-plot constructions, of either class, leave the counter
alone); the counter never decreases; and an anonymous construction performed
after an earlier one — with any constructions of any kind interleaved — never
receives the same name. -/
theorem anonymous_names_sequential (es iv : List Event) (s : PyClasses)
    (c c' : Cls) (fsz fsz' : Option Size) :
    anonNamesOf initState es = (List.range (countAnon es)).map FigName.num
    ∧ s.figureNumber ≤ (runEvents s iv).figureNumber
    ∧ ∀ sess sess',
        (figureInit c (CtorArgs.anonymous fsz) s).result = Except.ok sess →
        (figureInit c' (CtorArgs.anonymous fsz')
            (runEvents (figureInit c (CtorArgs.anonymous fsz) s).state iv)).result
          = Except.ok sess' →
        sess.name ≠ sess'.name := by
  refine ⟨?_, figureNumber_le_runEvents iv s, ?_⟩
  · rw [List.range_eq_range']
    exact anonNamesOf_eq_range es initState
  · intro sess sess' h1 h2
    simp [figureInit] at h1 h2
    have hmono := figureNumber_le_runEvents iv
      ((figureInit c (CtorArgs.anonymous fsz) s).state)
    simp [figureInit] at hmono
    rw [← h1, ← h2]
    simp
    omega

/-- C5 witness: two anonymous constructions with a named 3-D construction
interleaved receive the distinct names 0 and 1. -/
theorem anonymous_names_sequential_witness :
    anonNamesOf initState
        [(Cls.figure, CtorArgs.anonymous Option.none),
         (Cls.figure3d, CtorArgs.named "y" Option.none),
         (Cls.figure, CtorArgs.anonymous Option.none)]
      = [FigName.num 0, FigName.num 1]
    ∧ (Session.mk Cls.figure (some (FigName.num 0))).name
        ≠ (Session.mk Cls.figure (some (FigName.num 1))).name := by
  obtain ⟨h1, h2, h3⟩ := anonymous_names_sequential
    [(Cls.figure, CtorArgs.anonymous Option.none),
     (Cls.figure3d, CtorArgs.named "y" Option.none),
     (Cls.figure, CtorArgs.anonymous Option.none)]
    [(Cls.figure3d, CtorArgs.named "y" Option.none)] initState
    Cls.figure Cls.figure Option.none Option.none
  exact ⟨h1.trans (by decide),
    h3 ⟨Cls.figure, some (FigName.num 0)⟩ ⟨Cls.figure, some (FigName.num 1)⟩ rfl rfl⟩

/-- C6 counterexample: the claim says every construction without a caller
`figsize` uses the 6×6 default, including quick-plot ones. The quick-plot path
calls `plt.figure()` with no arguments at all — the `figsize` default is
injected only on the code path the quick-plot branch returns before reaching —
so the surface gets the backend's own default size, not 6×6. -/
theorem quickplot_backend_default_size :
    figureInit Cls.figure CtorArgs.quickplot initState =
      ⟨[Effect.createFigure Option.none, Effect.plot, Effect.showPlot],
       Except.ok ⟨Cls.figure, Option.none⟩, initState⟩
    ∧ (Option.none : Option Size) ≠ some FIGSIZE :=
  ⟨rfl, by decide⟩

/-- C6 (amended): anonymous and named constructions create the surface with
the caller's `figsize` when supplied and with the fixed 6×6 `FIGSIZE` default
otherwise; the quick-plot path passes no `figsize` at all, leaving the size to
the backend's own default. -/
theorem default_figsize (c : Cls) (s : PyClasses) (nm : String) (sz : Size) :
    (figureInit c (CtorArgs.anonymous Option.none) s).effects
      = [Effect.createFigure (some FIGSIZE)]
    ∧ (figureInit c (CtorArgs.named nm Option.none) s).effects
      = [Effect.createFigure (some FIGSIZE)]
    ∧ (figureInit c (CtorArgs.anonymous (some sz)) s).effects
      = [Effect.createFigure (some sz)]
    ∧ (figureInit c (CtorArgs.named nm (some sz)) s).effects
      = [Effect.createFigure (some sz)]
    ∧ (figureInit c CtorArgs.quickplot s).effects.head?
      = some (Effect.createFigure Option.none) :=
  ⟨rfl, rfl, rfl, rfl, rfl⟩

/-- C7 counterexample: the claim says every header-only file fails at indexing
the absent first data row. A header-only file whose fields are unquoted text
(as a bare `a,b,c` header is) already fails inside the csv reader — the
`QUOTE_NONNUMERIC` float conversion raises `ValueError` — before any indexing
happens, so the raised error is not the indexing one. -/
theorem header_only_unquoted_parse_error :
    numpy_from_csv [[RawField.mk "a" false, RawField.mk "b" false, RawField.mk "c" false]]
      = Except.error PyError.valueError
    ∧ PyError.valueError ≠ PyError.indexError :=
  ⟨by decide, by decide⟩

/-- C7 (amended): a header-only file always fails and never yields a record
set; when the header row itself parses under the quoting policy (quoted or
numeric fields), the failure is exactly the `IndexError` from indexing the
absent first data row, and otherwise the load already fails inside the csv
reader. -/
theorem header_only_always_fails (hdr : List RawField) (hp : List PyVal) :
    (∃ e, numpy_from_csv [hdr] = Except.error e)
    ∧ (readCsv [hdr] = Except.ok [hp] →
        numpy_from_csv [hdr] = Except.error PyError.indexError) := by
  rcases hg : parseRow hdr with e | b
  · have hr : readCsv [hdr] = Except.error e := by simp [readCsv, hg]
    exact ⟨⟨e, by simp [numpy_from_csv, hr]⟩, fun h => by rw [hr] at h; cases h⟩
  · have hr : readCsv [hdr] = Except.ok [b] := by simp [readCsv, hg]
    exact ⟨⟨PyError.indexError, by simp [numpy_from_csv, hr]⟩,
      fun _ => by simp [numpy_from_csv, hr]⟩

/-- C7 witness: a header-only file whose single field parses (the numeric
`1`) fails with the indexing error. -/
theorem header_only_always_fails_witness :
    numpy_from_csv [[RawField.mk "1" false]] = Except.error PyError.indexError :=
  (header_only_always_fails [RawField.mk "1" false] [PyVal.float 1]).2 rfl

/-- C8: the quick-plot path runs the plot call and the whole show-or-save
scope cycle inside `__init__` before it returns, and never assigns the `name`
attribute; so in interactive mode the constructor returns a nameless instance
after plotting and showing, and in non-interactive mode the constructor
itself raises `AttributeError` at the save step. -/
theorem quickplot_in_constructor (c : Cls) (s : PyClasses) :
    (readInteractive c s = true →
      figureInit c CtorArgs.quickplot s =
        ⟨[Effect.createFigure Option.none, Effect.plot, Effect.showPlot],
         Except.ok ⟨c, Option.none⟩, s⟩)
    ∧ (readInteractive c s = false →
      figureInit c CtorArgs.quickplot s =
        ⟨[Effect.createFigure Option.none, Effect.plot],
         Except.error PyError.attributeError, s⟩) := by
  constructor <;> intro hi <;> simp [figureInit, runScope, exitFigure, hi]

/-- C8 witness: the quick-plot constructor at the initial (interactive) state
and at the non-interactive state. -/
theorem quickplot_in_constructor_witness :
    figureInit Cls.figure CtorArgs.quickplot initState =
      ⟨[Effect.createFigure Option.none, Effect.plot, Effect.showPlot],
       Except.ok ⟨Cls.figure, Option.none⟩, initState⟩
    ∧ figureInit Cls.figure CtorArgs.quickplot (set_interactive Cls.figure false initState) =
      ⟨[Effect.createFigure Option.none, Effect.plot],
       Except.error PyError.attributeError,
       set_interactive Cls.figure false initState⟩ :=
  ⟨(quickplot_in_constructor Cls.figure initState).1 rfl,
   (quickplot_in_constructor Cls.figure
      (set_interactive Cls.figure false initState)).2 rfl⟩

/-- C9: `__exit__` has no return statement, so whenever it completes it
returns `None`, which is falsy; the `with` statement therefore never
suppresses the body's exception — after the show-or-save action runs, the
body's exception propagates, and on the paths where `__exit__` itself raises
an exception still propagates. -/
theorem exit_returns_none_never_suppresses (sess : Session) (s : PyClasses)
    (e : PyError) :
    truthy exitReturnValue = false
    ∧ (∀ effs, exitFigure sess s = Except.ok effs →
        runScope sess s (BodyOutcome.raises e) = (effs, some e))
    ∧ (runScope sess s (BodyOutcome.raises e)).2 ≠ Option.none := by
  refine ⟨rfl, ?_, ?_⟩
  · intro effs heff
    simp [runScope, heff, truthy, exitReturnValue]
  · rcases heff : exitFigure sess s with e2 | effs <;>
      simp [runScope, heff, truthy, exitReturnValue]

/-- C9 witness: an interactive session whose body raised `ValueError` still
shows the figure and the exception propagates. -/
theorem exit_returns_none_never_suppresses_witness :
    runScope ⟨Cls.figure, some (FigName.str "p")⟩ initState
        (BodyOutcome.raises PyError.valueError)
      = ([Effect.showPlot], some PyError.valueError) :=
  (exit_returns_none_never_suppresses ⟨Cls.figure, some (FigName.str "p")⟩
    initState PyError.valueError).2.1 [Effect.showPlot] rfl

/-- C10: calling `set_interactive` or `set_extension` through `Figure3d`
writes the attribute on `Figure3d` itself: the `Figure` base-class values are
unchanged, plain `Figure` lookups still see the old values, and `Figure3d`
lookups see the shadowing new ones. -/
theorem subclass_setters_shadow_base (s : PyClasses) (b : Bool)
    (sfx : Option String) :
    (set_interactive Cls.figure3d b s).figureInteractive = s.figureInteractive
    ∧ readInteractive Cls.figure (set_interactive Cls.figure3d b s)
      = readInteractive Cls.figure s
    ∧ readInteractive Cls.figure3d (set_interactive Cls.figure3d b s) = b
    ∧ (set_extension Cls.figure3d sfx s).figureSuffix = s.figureSuffix
    ∧ readSuffix Cls.figure (set_extension Cls.figure3d sfx s)
      = readSuffix Cls.figure s
    ∧ readSuffix Cls.figure3d (set_extension Cls.figure3d sfx s) = formatSuffix sfx :=
  ⟨rfl, rfl, rfl, rfl, rfl, rfl⟩

end PsetUtils
